import Mathlib

/-
Shallow embedding of the exec_logger crate (src/log_level.rs, src/config.rs,
src/logger.rs, src/log.rs).  Rust strings are modelled as lists of characters;
the chrono and filesystem collaborators are modelled explicitly (a `World`
record supplies listing results, deletion outcomes and the current time).
-/

namespace ExecLogger

/-- Rust strings are modelled as lists of characters. -/
abbrev Str := List Char

/-- Coerce a Lean string literal into the `Str` model. -/
def str (s : String) : Str := s.toList

/-! ## String primitives used by the source (`str::contains`, `str::replace`,
`str::ends_with`, `format!("{:<7}", _)`, lexicographic `cmp`). -/

/-- Model of Rust `str::contains(pat)`: `pat` occurs as a contiguous substring
of `s`. -/
def containsL (s pat : Str) : Bool :=
  match s with
  | [] => pat.isEmpty
  | _ :: rest => pat.isPrefixOf s || containsL rest pat

/-- Recursion core of the `str::replace` model; each step consumes at least
one character of the scanned string, so `fuel = s.length` never runs dry. -/
def replaceFuel (pat rep : Str) : Nat → Str → Str
  | 0, s => s
  | _ + 1, [] => []
  | fuel + 1, c :: rest =>
    if pat ≠ [] ∧ pat.isPrefixOf (c :: rest) = true then
      rep ++ replaceFuel pat rep fuel ((c :: rest).drop pat.length)
    else
      c :: replaceFuel pat rep fuel rest

/-- Model of Rust `str::replace(pat, rep)` for a non-empty literal pattern:
every leftmost non-overlapping occurrence of `pat` is replaced by `rep`, and
replacement text is never rescanned. -/
def replaceL (pat rep : Str) (s : Str) : Str :=
  replaceFuel pat rep s.length s

/-- Model of Rust `str::ends_with('\n')`. -/
def endsWithNewline (s : Str) : Bool := s.getLast? == some '\n'

/-- Number of consecutive newline characters at the end of a string. -/
def trailingNewlines (s : Str) : Nat :=
  (s.reverse.takeWhile (fun c => c == '\n')).length

/-- Model of `format!("\x7b:<7\x7d", s)`: left-justified padding with spaces to
a minimum width of 7. -/
def pad7 (s : Str) : Str := s ++ List.replicate (7 - s.length) ' '

/-- Lexicographic comparison of strings, the order used by Rust `str::cmp`
(on these folder names byte order and character order coincide). -/
def strLe (a b : Str) : Bool :=
  match a, b with
  | [], _ => true
  | _ :: _, [] => false
  | c :: as_, d :: bs => if c = d then strLe as_ bs else decide (c < d)

/-- Insertion into a `strLe`-sorted list. -/
def insertSorted (f : Str) (l : List Str) : List Str :=
  match l with
  | [] => [f]
  | g :: rest => if strLe f g then f :: g :: rest else g :: insertSorted f rest

/-- Model of `log_folders.sort_by(|a, b| a.to_string_lossy().cmp(..))`: all the
paths share the log-root prefix, so sorting the full path strings is sorting
the folder names lexicographically. -/
def sortByName (l : List Str) : List Str :=
  match l with
  | [] => []
  | f :: rest => insertSorted f (sortByName rest)

/-! ## LogLevel (src/log_level.rs) -/

/-- Embedding of `enum LogLevel`: the five built-in variants plus
`Custom(i32, String)`. -/
inductive LogLevel where
  | error
  | warn
  | info
  | debug
  | trace
  | custom (value : Int) (display : Str)
deriving DecidableEq, Repr

/-- Embedding of `impl From<&LogLevel> for i32`. -/
def LogLevel.severity : LogLevel → Int
  | .error => 50
  | .warn => 40
  | .info => 30
  | .debug => 20
  | .trace => 10
  | .custom value _ => value

/-- Embedding of `impl fmt::Display for LogLevel`. -/
def LogLevel.toDisplay : LogLevel → Str
  | .error => str "ERROR"
  | .warn => str "WARN"
  | .info => str "INFO"
  | .debug => str "DEBUG"
  | .trace => str "TRACE"
  | .custom _ display => display

/-- Embedding of `impl Ord for LogLevel`: compare the `i32` severities. -/
def LogLevel.cmp (a b : LogLevel) : Ordering :=
  compare a.severity b.severity

/-- Rust `a < b` on `LogLevel`, derived from `PartialOrd`, which delegates to
`Ord::cmp`. -/
def LogLevel.lt (a b : LogLevel) : Bool :=
  LogLevel.cmp a b == Ordering.lt

/-! ## Run-folder timestamps (chrono collaborator)

The run-folder names use the fixed pattern `%Y-%m-%d %H_%M_%S`.  The chrono
collaborator is modelled concretely on that one pattern: a `RunTime` record of
the six calendar fields, a strict parser for the 19-character folder-name
shape, a zero-padded formatter, and field-lexicographic comparison (which is
how chrono orders `NaiveDateTime` values). -/

/-- Calendar fields of a run-folder timestamp. -/
structure RunTime where
  year : Nat
  month : Nat
  day : Nat
  hour : Nat
  minute : Nat
  second : Nat
deriving DecidableEq, Repr

/-- Chronological (field-lexicographic) strict comparison of timestamps,
modelling `<` on chrono `NaiveDateTime`. -/
def RunTime.ltB (a b : RunTime) : Bool :=
  if a.year ≠ b.year then decide (a.year < b.year)
  else if a.month ≠ b.month then decide (a.month < b.month)
  else if a.day ≠ b.day then decide (a.day < b.day)
  else if a.hour ≠ b.hour then decide (a.hour < b.hour)
  else if a.minute ≠ b.minute then decide (a.minute < b.minute)
  else decide (a.second < b.second)

/-- Numeric value of two decimal digit characters. -/
def digits2 (a b : Char) : Nat := (a.toNat - 48) * 10 + (b.toNat - 48)

/-- Model of `NaiveDateTime::parse_from_str(name, "%Y-%m-%d %H_%M_%S")`: the
name must be exactly `YYYY-MM-DD HH_MM_SS` with decimal digits and in-range
field values (the calendar fine structure, days-per-month, is abstracted to
the range 1..31). `none` marks a foreign folder name. -/
def parseRunFolder (name : Str) : Option RunTime :=
  match name with
  | [y1, y2, y3, y4, h1, mo1, mo2, h2, d1, d2, sp, hh1, hh2, u1, mi1, mi2, u2, s1, s2] =>
    if (y1.isDigit && y2.isDigit && y3.isDigit && y4.isDigit &&
        (h1 == '-') && mo1.isDigit && mo2.isDigit && (h2 == '-') &&
        d1.isDigit && d2.isDigit && (sp == ' ') &&
        hh1.isDigit && hh2.isDigit && (u1 == '_') &&
        mi1.isDigit && mi2.isDigit && (u2 == '_') &&
        s1.isDigit && s2.isDigit) then
      let mo := digits2 mo1 mo2
      let d := digits2 d1 d2
      let hh := digits2 hh1 hh2
      let mi := digits2 mi1 mi2
      let s := digits2 s1 s2
      if 1 ≤ mo && mo ≤ 12 && 1 ≤ d && d ≤ 31 && hh < 24 && mi < 60 && s < 60 then
        some ⟨digits2 y1 y2 * 100 + digits2 y3 y4, mo, d, hh, mi, s⟩
      else
        none
    else
      none
  | _ => none

/-- A folder name was produced by the logger exactly when it parses under the
fixed run-folder pattern. -/
def isValidRun (f : Str) : Bool := (parseRunFolder f).isSome

/-- Zero-padded decimal rendering to a minimum width. -/
def padNum (width n : Nat) : Str :=
  let ds := str (toString n)
  List.replicate (width - ds.length) '0' ++ ds

/-- Model of `current_datetime.format("%Y-%m-%d %H_%M_%S").to_string()`. -/
def formatRunTime (t : RunTime) : Str :=
  padNum 4 t.year ++ ('-' :: padNum 2 t.month) ++ ('-' :: padNum 2 t.day) ++
    (' ' :: padNum 2 t.hour) ++ ('_' :: padNum 2 t.minute) ++ ('_' :: padNum 2 t.second)

/-! ## Configuration (src/config.rs) -/

/-- Embedding of `enum ConfigError`. -/
inductive ConfigError where
  | invalidFormat (details : Str)
deriving DecidableEq, Repr

/-- Placeholder token literals used by config.rs and logger.rs. -/
def tTIMESTAMP : Str := str "\x7bTIMESTAMP\x7d"

/-- The `\x7bEXE_NAME\x7d` token. -/
def tEXE_NAME : Str := str "\x7bEXE_NAME\x7d"

/-- The `\x7bSYSTEM_NAME\x7d` token. -/
def tSYSTEM_NAME : Str := str "\x7bSYSTEM_NAME\x7d"

/-- The `\x7bUSER_NAME\x7d` token. -/
def tUSER_NAME : Str := str "\x7bUSER_NAME\x7d"

/-- The `\x7bLEVEL\x7d` token. -/
def tLEVEL : Str := str "\x7bLEVEL\x7d"

/-- The `\x7bMESSAGE\x7d` token. -/
def tMESSAGE : Str := str "\x7bMESSAGE\x7d"

/-- Embedding of `DEFAULT_MESSAGE_FORMAT`. -/
def DEFAULT_MESSAGE_FORMAT : Str :=
  str "\x7bTIMESTAMP\x7d | \x7bEXE_NAME\x7d | \x7bSYSTEM_NAME\x7d | \x7bUSER_NAME\x7d | \x7bLEVEL\x7d | \x7bMESSAGE\x7d"

/-- Embedding of `DEFAULT_TIMESTAMP_FORMAT`. -/
def DEFAULT_TIMESTAMP_FORMAT : Str := str "%Y-%m-%d %H:%M:%S%z"

/-- Embedding of `struct LoggerConfiguration`.  The identity fields
(`exe_name`, `system_name`, `user_name`) are environment lookups resolved at
construction; here they are arbitrary field values. -/
structure LoggerConfiguration where
  log_dir : Str
  file_extension : Str
  days_stored : Option Nat
  executions_stored : Option Nat
  filter_log_level : Option LogLevel
  exe_name : Str
  system_name : Str
  user_name : Str
  message_format : Option Str
  timestamp_format : Option Str
deriving Repr

/-- Embedding of `LoggerConfiguration::get_message_format`. -/
def LoggerConfiguration.get_message_format (cfg : LoggerConfiguration) : Str :=
  match cfg.message_format with
  | some x => x
  | none => DEFAULT_MESSAGE_FORMAT

/-- Embedding of `LoggerConfiguration::get_timestamp_format`. -/
def LoggerConfiguration.get_timestamp_format (cfg : LoggerConfiguration) : Str :=
  match cfg.timestamp_format with
  | some x => x
  | none => DEFAULT_TIMESTAMP_FORMAT

/-- Error detail produced when `\x7bMESSAGE\x7d` is missing. -/
def errDetailMESSAGE : Str := str "Message format must contain \x7bMESSAGE\x7d"

/-- Error detail produced when `\x7bLEVEL\x7d` is missing. -/
def errDetailLEVEL : Str := str "Message format must contain \x7bLEVEL\x7d"

/-- Embedding of `LoggerConfiguration::set_message_format`: the Rust method
mutates `self` and returns a `Result<(), ConfigError>`; here it returns the
result together with the post-state. -/
def set_message_format (cfg : LoggerConfiguration) (format : Str) :
    Except ConfigError Unit × LoggerConfiguration :=
  if !(containsL format tMESSAGE) then
    (.error (.invalidFormat errDetailMESSAGE), cfg)
  else if !(containsL format tLEVEL) then
    (.error (.invalidFormat errDetailLEVEL), cfg)
  else
    (.ok (), { cfg with message_format := some format })

/-! ## Message formatting (Logger::format_message, src/logger.rs 181-218)

The chrono rendering of `Local::now()` under the configured timestamp format
is an opaque collaborator; its output string is passed in as `ts`.  The source
body is one sequential pipeline; it is split here into the substitution steps
before `\x7bMESSAGE\x7d`, the `\x7bMESSAGE\x7d` step, and the trailing-newline
step, composed in the same order. -/

/-- Substitution pipeline of `format_message` up to and including the
`\x7bLEVEL\x7d` step (everything before the `\x7bMESSAGE\x7d` substitution). -/
def substitutedNoMsg (cfg : LoggerConfiguration) (ts : Str) (level : LogLevel) : Str :=
  let msg := cfg.get_message_format
  let msg := if containsL msg tTIMESTAMP then replaceL tTIMESTAMP ts msg else msg
  let msg := if containsL msg tEXE_NAME then replaceL tEXE_NAME cfg.exe_name msg else msg
  let msg := if containsL msg tSYSTEM_NAME then replaceL tSYSTEM_NAME cfg.system_name msg else msg
  let msg := if containsL msg tUSER_NAME then replaceL tUSER_NAME cfg.user_name msg else msg
  if containsL msg tLEVEL then replaceL tLEVEL (pad7 level.toDisplay) msg else msg

/-- The full substitution pipeline of `format_message` (all placeholder steps,
`\x7bMESSAGE\x7d` last), before the trailing-newline step. -/
def substituted (cfg : LoggerConfiguration) (ts : Str) (message : Str)
    (level : LogLevel) : Str :=
  let msg := substitutedNoMsg cfg ts level
  if containsL msg tMESSAGE then replaceL tMESSAGE message msg else msg

/-- Embedding of `Logger::format_message`: substitutions followed by the
`ends_with('\n')` check and conditional `push('\n')`. -/
def format_message (cfg : LoggerConfiguration) (ts : Str) (message : Str)
    (level : LogLevel) : Str :=
  let msg := substituted cfg ts message level
  if endsWithNewline msg then msg else msg ++ ['\n']

/-! ## The filesystem / clock collaborators

`World` bundles the behaviour of the external collaborators during one
`Logger::new` call: the immediate subdirectory names of the log root, whether
`read_dir` fails, which `remove_dir_all` calls succeed, whether
`create_dir_all` succeeds, `Local::now()` truncated to the run-folder fields,
the precomputed `now - Duration::days(days_stored)` cutoff, and the rendered
`\x7bTIMESTAMP\x7d` string. -/

/-- Opaque I/O error token (`std::io::Error`). -/
inductive IOError where
  | ioErr
deriving DecidableEq, Repr

/-- External collaborator behaviour for one `Logger::new` call. -/
structure World where
  folders : List Str
  readDirError : Bool
  deleteOk : Str → Bool
  createDirOk : Bool
  now : RunTime
  ageLimit : RunTime
  nowTs : Str

/-- Embedding of `Logger::list_folders`: the body wraps `read_dir` in
`if let Ok(entries) = ...`, so a failing `read_dir` contributes no entries and
the function still returns `Ok` (it never constructs an `Err`). -/
def list_folders (readDirError : Bool) (folders : List Str) :
    Except IOError (List Str) :=
  if readDirError then .ok [] else .ok folders

/-! ## Retention (Logger::delete_old_logs, src/logger.rs 59-163) -/

/-- Embedding of the age pass body (lines 65-101): every listed folder whose
name parses and whose timestamp is strictly below the cutoff is handed to
`remove_dir_all`; the deleted set is those where deletion succeeded.  Failures
are only reported to stderr. -/
def deleteByAge (deleteOk : Str → Bool) (limit : RunTime) (folders : List Str) :
    List Str :=
  folders.filter fun f =>
    match parseRunFolder f with
    | none => false
    | some dt => RunTime.ltB dt limit && deleteOk f

/-- Embedding of the count-pass loop (lines 120-151): walk the sorted folder
list; skip unparseable names; attempt deletion of parseable ones, decrementing
the remaining counter only on success; stop once the counter reaches zero.
Returns the successfully deleted folders. -/
def countLoop (deleteOk : Str → Bool) (l : List Str) (nd : Int) : List Str :=
  match l with
  | [] => []
  | f :: rest =>
    if !(isValidRun f) then countLoop deleteOk rest nd
    else if deleteOk f then
      if nd - 1 ≤ 0 then [f] else f :: countLoop deleteOk rest (nd - 1)
    else
      if nd ≤ 0 then [] else countLoop deleteOk rest nd

/-- Embedding of the count pass (lines 110-152): `num_delete` is computed from
the length of the full listing (`log_folders.len()`), the listing is sorted by
path string, and the loop runs only when `num_delete > 0`. -/
def deleteByCount (deleteOk : Str → Bool) (executions_stored : Nat)
    (folders : List Str) : List Str :=
  let num_delete : Int := (folders.length : Int) - ((executions_stored : Int) - 1)
  if 0 < num_delete then countLoop deleteOk (sortByName folders) num_delete
  else []

/-- Embedding of `Logger::delete_old_logs`: the age pass runs when
`days_stored` is set, then the count pass relists the directory (minus what the
age pass removed) when `executions_stored` is set.  Returns the deleted folder
names; the only `?` operators are on `list_folders`. -/
def delete_old_logs (cfg : LoggerConfiguration) (w : World) :
    Except IOError (List Str) :=
  let pass1 : Except IOError (List Str) :=
    match cfg.days_stored with
    | some _ =>
      match list_folders w.readDirError w.folders with
      | .error e => .error e
      | .ok folders => .ok (deleteByAge w.deleteOk w.ageLimit folders)
    | none => .ok []
  match pass1 with
  | .error e => .error e
  | .ok ageDeleted =>
    match cfg.executions_stored with
    | some n =>
      match list_folders w.readDirError
          (w.folders.filter fun f => !(ageDeleted.contains f)) with
      | .error e => .error e
      | .ok folders2 => .ok (ageDeleted ++ deleteByCount w.deleteOk n folders2)
    | none => .ok ageDeleted

/-! ## The run logger (src/logger.rs) -/

/-- Embedding of `struct Logger`. -/
structure Logger where
  config : LoggerConfiguration
  log_file_path : Str

/-- Path of the new run's log file,
`log_dir/<formatted now>/execution_log.<ext>`. -/
def logFilePath (cfg : LoggerConfiguration) (w : World) : Str :=
  cfg.log_dir ++ ('/' :: formatRunTime w.now) ++
    ('/' :: (str "execution_log." ++ cfg.file_extension))

/-- Embedding of `Logger::create_current_log`: `create_dir_all` may fail with
an I/O error; on success the log-file path is stored (the file itself is not
created). -/
def create_current_log (cfg : LoggerConfiguration) (w : World) :
    Except IOError Str :=
  if w.createDirOk then .ok (logFilePath cfg w) else .error .ioErr

/-- Embedding of `Logger::log` (lines 221-253): a configured filter with
`*level < filter_level` makes the call return before formatting; otherwise the
formatted message is the single payload written to stdout and appended to the
log file (file errors only go to stderr).  The emitted payload, if any, is the
return value. -/
def Logger.log (lg : Logger) (ts : Str) (message : Str) (level : LogLevel) :
    Option Str :=
  match lg.config.filter_log_level with
  | some filter_level =>
    if LogLevel.lt level filter_level then none
    else some (format_message lg.config ts message level)
  | none => some (format_message lg.config ts message level)

/-- Embedding of `Logger::new`: prune old logs, create the run folder (I/O
errors propagate), then send `info("Logger initialized")` through
`Logger::log`.  Returns the logger and the list of payloads emitted during
construction. -/
def Logger.new (cfg : LoggerConfiguration) (w : World) :
    Except IOError (Logger × List Str) :=
  match delete_old_logs cfg w with
  | .error e => .error e
  | .ok _ =>
    match create_current_log cfg w with
    | .error e => .error e
    | .ok path =>
      let logger : Logger := ⟨cfg, path⟩
      let emitted :=
        match logger.log w.nowTs (str "Logger initialized") LogLevel.info with
        | some m => [m]
        | none => []
      .ok (logger, emitted)

/-! ## Global registry (src/log.rs)

`LOGGER` is a `OnceCell<ArcSwap<Logger>>`: `set_logger` installs on first use
and thereafter replaces via `store`, always succeeding.  `initialize` builds
the logger first and only then touches the registry. -/

/-- Embedding of the crate's `initialize` free function (the word itself is a
Lean keyword, hence the name `initLogger`), acting on the registry state:
returns the caller-visible result and the post-state of the registry slot. -/
def initLogger (cfg : LoggerConfiguration) (w : World) (reg : Option Logger) :
    Except IOError Unit × Option Logger :=
  match Logger.new cfg w with
  | .error e => (.error e, reg)
  | .ok (lg, _) => (.ok (), some lg)

/-! ## Concrete fixtures used by witnesses and counterexamples -/

/-- Basic configuration: `logs` root, `txt` extension, `days_stored = 7`,
`executions_stored = 5`, no filter, default templates. -/
def cfgBase : LoggerConfiguration :=
  ⟨str "logs", str "txt", some 7, some 5, none, str "exe", str "sys", str "usr",
    none, none⟩

/-- Like `cfgBase` with filter level `Info`. -/
def cfgFilterInfo : LoggerConfiguration :=
  ⟨str "logs", str "txt", some 7, some 5, some LogLevel.info, str "exe", str "sys",
    str "usr", none, none⟩

/-- Like `cfgBase` with filter level `Error`. -/
def cfgFilterError : LoggerConfiguration :=
  ⟨str "logs", str "txt", some 7, some 5, some LogLevel.error, str "exe", str "sys",
    str "usr", none, none⟩

/-- Like `cfgBase` with the stored message template
`"\x7bTIMESTAMP\x7d|\x7bMESSAGE\x7d"`. -/
def cfgTsMsg : LoggerConfiguration :=
  ⟨str "logs", str "txt", some 7, some 5, none, str "exe", str "sys", str "usr",
    some (str "\x7bTIMESTAMP\x7d|\x7bMESSAGE\x7d"), none⟩

/-- Basic collaborator behaviour: two valid run folders, listing succeeds,
all deletions succeed, folder creation succeeds, now = 2024-01-10, age cutoff
2024-01-03, rendered timestamp `"T0"`. -/
def wBase : World :=
  ⟨[str "2024-01-02 00_00_00", str "2024-01-04 00_00_00"], false, fun _ => true,
    true, ⟨2024, 1, 10, 0, 0, 0⟩, ⟨2024, 1, 3, 0, 0, 0⟩, str "T0"⟩

/-- Like `wBase` but `read_dir` fails while listing the log root. -/
def wReadErr : World :=
  ⟨[str "2024-01-02 00_00_00", str "2024-01-04 00_00_00"], true, fun _ => true,
    true, ⟨2024, 1, 10, 0, 0, 0⟩, ⟨2024, 1, 3, 0, 0, 0⟩, str "T0"⟩

/-! ## Helper lemmas -/

/-- Substring containment agrees with `List.IsInfix`. -/
theorem containsL_spec (s pat : Str) : containsL s pat = true ↔ pat <:+: s := by
  induction s with
  | nil =>
    simp only [containsL, List.isEmpty_iff, List.infix_nil]
  | cons c rest ih =>
    simp only [containsL, Bool.or_eq_true, List.isPrefixOf_iff_prefix, ih,
      List.infix_cons_iff]

/-- Where the replace model substitutes at least once, the replacement text is
a substring of the result. -/
theorem infix_replaceFuel (pat rep : Str) (hp : pat ≠ []) :
    ∀ fuel s, s.length ≤ fuel → containsL s pat = true →
      rep <:+: replaceFuel pat rep fuel s := by
  intro fuel
  induction fuel with
  | zero =>
    intro s hlen hc
    have hs : s = [] := List.eq_nil_of_length_eq_zero (Nat.le_zero.mp hlen)
    subst hs
    simp only [containsL, List.isEmpty_iff] at hc
    exact absurd hc hp
  | succ fuel ih =>
    intro s hlen hc
    match s with
    | [] =>
      simp only [containsL, List.isEmpty_iff] at hc
      exact absurd hc hp
    | c :: rest =>
      rw [replaceFuel]
      by_cases hpre : pat.isPrefixOf (c :: rest) = true
      · rw [if_pos ⟨hp, hpre⟩]
        exact (List.prefix_append rep _).isInfix
      · rw [if_neg (fun hcon => hpre hcon.2)]
        have hc2 : containsL rest pat = true := by
          rw [containsL, Bool.or_eq_true] at hc
          exact hc.resolve_left hpre
        have hlen2 : rest.length ≤ fuel := by
          simp only [List.length_cons] at hlen
          omega
        exact (ih rest hlen2 hc2).trans ((List.suffix_cons c _).isInfix)

/-- The replacement text is a substring of `replaceL pat rep s` whenever `pat`
occurs in `s`. -/
theorem infix_replaceL (pat rep s : Str) (hp : pat ≠ [])
    (hc : containsL s pat = true) : rep <:+: replaceL pat rep s :=
  infix_replaceFuel pat rep hp s.length s (Nat.le_refl _) hc

/-- The count-pass loop only ever deletes folders whose names parse. -/
theorem countLoop_all_valid (dOk : Str → Bool) (l : List Str) :
    ∀ nd : Int, (countLoop dOk l nd).all isValidRun = true := by
  induction l with
  | nil => intro nd; rfl
  | cons g rest ih =>
    intro nd
    rw [countLoop]
    by_cases hv : isValidRun g = true
    · simp only [hv, Bool.not_true, Bool.false_eq_true, if_false]
      by_cases hd : dOk g = true
      · rw [if_pos hd]
        by_cases h1 : nd - 1 ≤ 0
        · rw [if_pos h1]
          simp [hv]
        · rw [if_neg h1]
          simp [hv, ih]
      · rw [if_neg hd]
        by_cases h0 : nd ≤ 0
        · rw [if_pos h0]; rfl
        · rw [if_neg h0]; exact ih nd
    · have hv' : isValidRun g = false := by
        cases h : isValidRun g
        · rfl
        · exact absurd h hv
      simp only [hv', Bool.not_false, if_true]
      exact ih nd

/-- When every deletion succeeds, the count-pass loop removes exactly the
first `nd` parseable names of its input, in input order. -/
theorem countLoop_take (l : List Str) :
    ∀ nd : Int, 0 < nd →
      countLoop (fun _ => true) l nd = (l.filter isValidRun).take nd.toNat := by
  induction l with
  | nil => intro nd _; simp [countLoop]
  | cons g rest ih =>
    intro nd hnd
    rw [countLoop]
    by_cases hv : isValidRun g = true
    · simp only [hv, Bool.not_true, Bool.false_eq_true, if_false, if_pos rfl]
      rw [List.filter_cons_of_pos hv]
      have htn : nd.toNat = (nd - 1).toNat + 1 := by omega
      rw [htn, List.take_succ_cons]
      by_cases h1 : nd - 1 ≤ 0
      · rw [if_pos h1]
        have ht0 : (nd - 1).toNat = 0 := by omega
        rw [ht0, List.take_zero]
        simp
      · rw [if_neg h1]
        rw [ih (nd - 1) (by omega)]
        simp
    · have hv' : isValidRun g = false := by
        cases h : isValidRun g
        · rfl
        · exact absurd h hv
      simp only [hv', Bool.not_false, if_true]
      rw [List.filter_cons_of_neg (by simp [hv'])]
      exact ih nd hnd

/-- The retention routine can only fail through `list_folders`, and
`list_folders` never constructs an error, so pruning always returns `Ok`. -/
theorem delete_old_logs_ok (cfg : LoggerConfiguration) (w : World) :
    ∃ d, delete_old_logs cfg w = Except.ok d := by
  unfold delete_old_logs list_folders
  cases cfg.days_stored <;> cases cfg.executions_stored <;>
    cases hr : w.readDirError <;> simp

/-- Shape of a successful `Logger::new`: pruning cannot fail, folder creation
succeeds, and the construction ends by routing `"Logger initialized"` through
`Logger::log`. -/
theorem logger_new_ok (cfg : LoggerConfiguration) (w : World)
    (h : w.createDirOk = true) :
    Logger.new cfg w = Except.ok (⟨cfg, logFilePath cfg w⟩,
      match Logger.log ⟨cfg, logFilePath cfg w⟩ w.nowTs (str "Logger initialized")
          LogLevel.info with
      | some m => [m]
      | none => []) := by
  obtain ⟨d, hd⟩ := delete_old_logs_ok cfg w
  unfold Logger.new
  rw [hd]
  simp [create_current_log, h]

/-- Shape of a failing `Logger::new`: the only failure point is run-folder
creation. -/
theorem logger_new_err (cfg : LoggerConfiguration) (w : World)
    (h : w.createDirOk = false) :
    Logger.new cfg w = Except.error IOError.ioErr := by
  obtain ⟨d, hd⟩ := delete_old_logs_ok cfg w
  unfold Logger.new
  rw [hd]
  simp [create_current_log, h]

/-! ## Claims -/

/-- C3: for every pair of `LogLevel` values, the `Ord`-comparison used for
filtering and ordering is determined solely by the severity integer; two
levels with equal severity compare equal, including two `Custom` levels with
the same severity but different display names. -/
theorem level_comparison_by_severity_only :
    (∀ a b : LogLevel, LogLevel.cmp a b = Ordering.eq ↔ a.severity = b.severity) ∧
    LogLevel.cmp (.custom 25 (str "STAT")) (.custom 25 (str "METRIC")) = Ordering.eq ∧
    (str "STAT" ≠ str "METRIC") := by
  refine ⟨fun a b => ?_, by decide, by decide⟩
  unfold LogLevel.cmp
  exact compare_eq_iff_eq

/-- C9 counterexample: with the stored template `"x\n\n"` (no placeholder
substitution applies), the formatted output ends in two newlines, so it does
not end with exactly one trailing newline. -/
theorem trailing_newline_counterexample :
    trailingNewlines (format_message
      ⟨str "logs", str "txt", none, none, none, str "exe", str "sys", str "usr",
        some (str "x\n\n"), none⟩ (str "T0") (str "m") LogLevel.info) = 2 := by
  decide

/-- C9 (amended): the formatted output always ends with a trailing newline;
one is appended exactly when the substituted result does not already end in a
newline, and nothing is appended when it does (so the normalization is
idempotent, but a substituted result that already ends in several newlines
keeps them all). -/
theorem format_message_trailing_newline (cfg : LoggerConfiguration) (ts m : Str)
    (lvl : LogLevel) :
    endsWithNewline (format_message cfg ts m lvl) = true ∧
    format_message cfg ts m lvl =
      substituted cfg ts m lvl ++
        (if endsWithNewline (substituted cfg ts m lvl) then [] else ['\n']) := by
  unfold format_message
  by_cases he : endsWithNewline (substituted cfg ts m lvl) = true
  · rw [if_pos he, if_pos he]
    exact ⟨he, (List.append_nil _).symm⟩
  · have he' : endsWithNewline (substituted cfg ts m lvl) = false := by
      cases h : endsWithNewline (substituted cfg ts m lvl)
      · rfl
      · exact absurd h he
    rw [if_neg he, if_neg he]
    refine ⟨?_, rfl⟩
    unfold endsWithNewline
    simp

/-- C1 counterexample: with `executions_stored = 3`, two valid run folders and
one foreign directory, the claimed `to_delete = valid_count - (N - 1)` is
zero, yet the code (which counts the foreign directory too) deletes the oldest
valid folder. -/
theorem count_retention_counterexample :
    (([str "2024-01-01 00_00_00", str "2024-01-02 00_00_00",
        str "zfolder"].filter isValidRun).length = 2 ∧
      (2 : Int) - ((3 : Int) - 1) = 0) ∧
    deleteByCount (fun _ => true) 3
      [str "2024-01-01 00_00_00", str "2024-01-02 00_00_00", str "zfolder"] =
      [str "2024-01-01 00_00_00"] := by
  decide

/-- C1 (amended): with `executions_stored = N` and all deletions succeeding,
`to_delete` is computed from the total number of listed subdirectories
(foreign ones included), `to_delete = total_count - (N - 1)`; when that is
positive, exactly the `to_delete` oldest valid folders in ascending
lexicographic name order are removed, the newest valid ones survive, and only
folders with parseable names are ever removed (for any deletion outcome). -/
theorem count_retention_from_total_listing (N : Nat) (folders : List Str)
    (dOk : Str → Bool) :
    deleteByCount (fun _ => true) N folders =
      ((sortByName folders).filter isValidRun).take
        (((folders.length : Int) - ((N : Int) - 1)).toNat) ∧
    (deleteByCount dOk N folders).all isValidRun = true := by
  constructor
  · unfold deleteByCount
    by_cases h : 0 < (folders.length : Int) - ((N : Int) - 1)
    · rw [if_pos h, countLoop_take _ _ h]
    · rw [if_neg h]
      have h0 : (((folders.length : Int) - ((N : Int) - 1))).toNat = 0 := by omega
      rw [h0, List.take_zero]
  · unfold deleteByCount
    by_cases h : 0 < (folders.length : Int) - ((N : Int) - 1)
    · rw [if_pos h]
      exact countLoop_all_valid dOk _ _
    · rw [if_neg h]
      rfl

/-- Rust `<` on `LogLevel` holds exactly when the severity integers are
strictly ordered. -/
theorem logLevel_lt_iff (a b : LogLevel) :
    LogLevel.lt a b = true ↔ a.severity < b.severity := by
  unfold LogLevel.lt LogLevel.cmp
  have hbeq : (compare a.severity b.severity == Ordering.lt) = true ↔
      compare a.severity b.severity = Ordering.lt := by
    cases compare a.severity b.severity <;> decide
  rw [hbeq]
  exact compare_lt_iff_lt

/-- `Logger::log` with a configured filter reduces to the filter test. -/
theorem logger_log_some_filter (lg : Logger) (ts m : Str) (lvl fl : LogLevel)
    (hf : lg.config.filter_log_level = some fl) :
    Logger.log lg ts m lvl =
      if LogLevel.lt lvl fl then none
      else some (format_message lg.config ts m lvl) := by
  unfold Logger.log
  rw [hf]

/-- `Logger::log` without a configured filter always emits. -/
theorem logger_log_no_filter (lg : Logger) (ts m : Str) (lvl : LogLevel)
    (hf : lg.config.filter_log_level = none) :
    Logger.log lg ts m lvl = some (format_message lg.config ts m lvl) := by
  unfold Logger.log
  rw [hf]

/-- C8: with `days_stored` set and deletions succeeding, a listed folder is
removed by the age pass exactly when its name parses under the run-folder
pattern and the parsed time is strictly before the cutoff; and the pruning
routine always returns `Ok` (deletion failures never propagate). -/
theorem age_retention_strict_cutoff (limit : RunTime) (folders : List Str)
    (f : Str) (cfg : LoggerConfiguration) (w : World) :
    (f ∈ deleteByAge (fun _ => true) limit folders ↔
      f ∈ folders ∧ ∃ dt, parseRunFolder f = some dt ∧ RunTime.ltB dt limit = true) ∧
    (∃ d, delete_old_logs cfg w = Except.ok d) := by
  refine ⟨?_, delete_old_logs_ok cfg w⟩
  unfold deleteByAge
  rw [List.mem_filter]
  constructor
  · rintro ⟨hmem, hp⟩
    refine ⟨hmem, ?_⟩
    cases hpf : parseRunFolder f with
    | none => rw [hpf] at hp; exact absurd hp (by simp)
    | some dt =>
      rw [hpf] at hp
      simp only [Bool.and_eq_true] at hp
      exact ⟨dt, rfl, hp.1⟩
  · rintro ⟨hmem, dt, hpf, hlt⟩
    refine ⟨hmem, ?_⟩
    rw [hpf]
    simp [hlt]

/-- C8 witness: with cutoff 2024-01-03 (seven days before 2024-01-10), the
folder dated 2024-01-02 is removed while pruning returns `Ok`. -/
theorem age_retention_strict_cutoff_witness :
    str "2024-01-02 00_00_00" ∈ deleteByAge (fun _ => true) ⟨2024, 1, 3, 0, 0, 0⟩
      [str "2024-01-02 00_00_00", str "2024-01-04 00_00_00"] ∧
    ∃ d, delete_old_logs cfgBase wBase = Except.ok d := by
  constructor
  · exact (age_retention_strict_cutoff ⟨2024, 1, 3, 0, 0, 0⟩
      [str "2024-01-02 00_00_00", str "2024-01-04 00_00_00"]
      (str "2024-01-02 00_00_00") cfgBase wBase).1.mpr
      ⟨by decide, ⟨2024, 1, 2, 0, 0, 0⟩, by decide, by decide⟩
  · exact (age_retention_strict_cutoff ⟨2024, 1, 3, 0, 0, 0⟩
      [str "2024-01-02 00_00_00", str "2024-01-04 00_00_00"]
      (str "2024-01-02 00_00_00") cfgBase wBase).2

/-- C2 counterexample: with retention configured, a `read_dir` failure while
listing the log root does not propagate: `list_folders` answers `Ok` with an
empty list and `initialize` still succeeds. -/
theorem listing_error_not_propagated_counterexample :
    list_folders true [str "2024-01-02 00_00_00"] = Except.ok [] ∧
    (initLogger cfgBase wReadErr none).1 = Except.ok () := by
  constructor
  · rfl
  · rfl

/-- C2 (amended): a filesystem read error while listing the immediate
subdirectories of the log root is silently swallowed: the listing returns `Ok`
with no entries, the retention pass deletes nothing and reports `Ok`, and
`initialize` does not fail because of it. -/
theorem listing_error_swallowed (cfg : LoggerConfiguration) (w : World)
    (reg : Option Logger) (h : w.readDirError = true) :
    list_folders w.readDirError w.folders = Except.ok [] ∧
    delete_old_logs cfg w = Except.ok [] ∧
    (w.createDirOk = true → (initLogger cfg w reg).1 = Except.ok ()) := by
  refine ⟨?_, ?_, ?_⟩
  · simp [list_folders, h]
  · unfold delete_old_logs list_folders
    rw [h]
    cases cfg.days_stored <;> cases cfg.executions_stored <;>
      simp [deleteByAge, deleteByCount, countLoop, ite_self]
  · intro hc
    unfold initLogger
    rw [logger_new_ok cfg w hc]

/-- C2 witness for the amended statement, at a world whose listing fails. -/
theorem listing_error_swallowed_witness :
    list_folders wReadErr.readDirError wReadErr.folders = Except.ok [] ∧
    delete_old_logs cfgBase wReadErr = Except.ok [] ∧
    (wReadErr.createDirOk = true → (initLogger cfgBase wReadErr none).1 = Except.ok ()) :=
  listing_error_swallowed cfgBase wReadErr none rfl

/-- C4 counterexample: with filter level `Error`, `Logger::new` succeeds but
the `"Logger initialized"` INFO message is filtered out, so no startup message
is emitted. -/
theorem startup_message_counterexample :
    Logger.new cfgFilterError wBase =
      Except.ok (⟨cfgFilterError, logFilePath cfgFilterError wBase⟩, []) := by
  rfl

/-- C4 (amended): a successful `Logger::new` routes one INFO
`"Logger initialized"` message through its own log path, so the startup
message is formatted and emitted exactly when `Info` passes the configured
filter, and suppressed when the filter is stricter than `Info`. -/
theorem startup_message_through_filter (cfg : LoggerConfiguration) (w : World)
    (h : w.createDirOk = true) :
    Logger.new cfg w = Except.ok (⟨cfg, logFilePath cfg w⟩,
      match cfg.filter_log_level with
      | some fl =>
        if LogLevel.lt LogLevel.info fl then []
        else [format_message cfg w.nowTs (str "Logger initialized") LogLevel.info]
      | none => [format_message cfg w.nowTs (str "Logger initialized") LogLevel.info]) := by
  rw [logger_new_ok cfg w h]
  cases hf : cfg.filter_log_level with
  | none =>
    rw [logger_log_no_filter ⟨cfg, logFilePath cfg w⟩ w.nowTs
      (str "Logger initialized") LogLevel.info hf]
  | some fl =>
    rw [logger_log_some_filter ⟨cfg, logFilePath cfg w⟩ w.nowTs
      (str "Logger initialized") LogLevel.info fl hf]
    by_cases hlt : LogLevel.lt LogLevel.info fl = true
    · simp [hlt]
    · simp [hlt]

/-- C4 witness: with no filter configured, construction emits exactly the one
formatted startup message. -/
theorem startup_message_through_filter_witness :
    Logger.new cfgBase wBase = Except.ok (⟨cfgBase, logFilePath cfgBase wBase⟩,
      [format_message cfgBase wBase.nowTs (str "Logger initialized") LogLevel.info]) :=
  startup_message_through_filter cfgBase wBase rfl

/-- C5: `log(message, level)` is a silent no-op (nothing formatted or
emitted) exactly when a filter is configured and the message severity is
strictly below the filter severity; otherwise the formatted message is
emitted. -/
theorem log_suppressed_below_filter (lg : Logger) (ts m : Str) (lvl : LogLevel) :
    (Logger.log lg ts m lvl = none ↔
      ∃ fl, lg.config.filter_log_level = some fl ∧ lvl.severity < fl.severity) ∧
    (∀ fl, lg.config.filter_log_level = some fl → ¬ lvl.severity < fl.severity →
      Logger.log lg ts m lvl = some (format_message lg.config ts m lvl)) ∧
    (lg.config.filter_log_level = none →
      Logger.log lg ts m lvl = some (format_message lg.config ts m lvl)) := by
  cases hf : lg.config.filter_log_level with
  | none =>
    rw [logger_log_no_filter lg ts m lvl hf]
    refine ⟨by simp, ?_, fun _ => rfl⟩
    intro fl hfl
    exact absurd hfl (by simp)
  | some fl =>
    rw [logger_log_some_filter lg ts m lvl fl hf]
    by_cases hlt : LogLevel.lt lvl fl = true
    · rw [if_pos hlt]
      refine ⟨?_, ?_, ?_⟩
      · simp only [true_iff]
        exact ⟨fl, rfl, (logLevel_lt_iff lvl fl).mp hlt⟩
      · intro fl2 hfl2 hnlt
        injection hfl2 with h2
        subst h2
        exact absurd ((logLevel_lt_iff lvl fl).mp hlt) hnlt
      · intro hnone
        exact absurd hnone (by simp)
    · rw [if_neg hlt]
      refine ⟨?_, ?_, ?_⟩
      · constructor
        · intro hcon
          exact absurd hcon (by simp)
        · rintro ⟨fl2, hfl2, hsev⟩
          injection hfl2 with h2
          subst h2
          exact absurd ((logLevel_lt_iff lvl fl).mpr hsev) hlt
      · intro fl2 hfl2 hnlt
        rfl
      · intro hnone
        exact absurd hnone (by simp)

/-- C5 witness: under filter `Info` (severity 30) a custom level of severity
25 is suppressed without formatting, while `Warn` (40) is formatted and
emitted. -/
theorem log_suppressed_below_filter_witness :
    Logger.log ⟨cfgFilterInfo, str "p"⟩ (str "T0") (str "m")
      (LogLevel.custom 25 (str "STAT")) = none ∧
    Logger.log ⟨cfgFilterInfo, str "p"⟩ (str "T0") (str "m") LogLevel.warn =
      some (format_message cfgFilterInfo (str "T0") (str "m") LogLevel.warn) := by
  constructor
  · exact (log_suppressed_below_filter ⟨cfgFilterInfo, str "p"⟩ (str "T0") (str "m")
      (LogLevel.custom 25 (str "STAT"))).1.mpr ⟨LogLevel.info, rfl, by decide⟩
  · exact (log_suppressed_below_filter ⟨cfgFilterInfo, str "p"⟩ (str "T0") (str "m")
      LogLevel.warn).2.1 LogLevel.info rfl (by decide)

/-- C6: `set_message_format` succeeds exactly when the template contains both
`\x7bMESSAGE\x7d` and `\x7bLEVEL\x7d`; a missing `\x7bMESSAGE\x7d` is reported
first, failures leave the stored template (and the whole configuration)
unchanged, and success stores the new template verbatim. -/
theorem set_message_format_validation (cfg : LoggerConfiguration) (format : Str) :
    ((set_message_format cfg format).1 = Except.ok () ↔
      containsL format tMESSAGE = true ∧ containsL format tLEVEL = true) ∧
    (containsL format tMESSAGE = false →
      set_message_format cfg format =
        (Except.error (ConfigError.invalidFormat errDetailMESSAGE), cfg)) ∧
    (containsL format tMESSAGE = true → containsL format tLEVEL = false →
      set_message_format cfg format =
        (Except.error (ConfigError.invalidFormat errDetailLEVEL), cfg)) ∧
    (containsL format tMESSAGE = true → containsL format tLEVEL = true →
      set_message_format cfg format =
        (Except.ok (), { cfg with message_format := some format })) := by
  unfold set_message_format
  cases hm : containsL format tMESSAGE <;> cases hl : containsL format tLEVEL <;>
    simp [hm, hl]

/-- C6 witness: a template with both placeholders is stored; `"hello"` is
rejected for the missing `\x7bMESSAGE\x7d` (checked first), and a template
with only `\x7bMESSAGE\x7d` is rejected for the missing `\x7bLEVEL\x7d`; the
configuration is unchanged on both failures. -/
theorem set_message_format_validation_witness :
    set_message_format cfgBase (str "\x7bLEVEL\x7d \x7bMESSAGE\x7d") =
      (Except.ok (), { cfgBase with
        message_format := some (str "\x7bLEVEL\x7d \x7bMESSAGE\x7d") }) ∧
    set_message_format cfgBase (str "hello") =
      (Except.error (ConfigError.invalidFormat errDetailMESSAGE), cfgBase) ∧
    set_message_format cfgBase (str "\x7bMESSAGE\x7d") =
      (Except.error (ConfigError.invalidFormat errDetailLEVEL), cfgBase) := by
  refine ⟨?_, ?_, ?_⟩
  · exact (set_message_format_validation cfgBase
      (str "\x7bLEVEL\x7d \x7bMESSAGE\x7d")).2.2.2 (by decide) (by decide)
  · exact (set_message_format_validation cfgBase (str "hello")).2.1 (by decide)
  · exact (set_message_format_validation cfgBase (str "\x7bMESSAGE\x7d")).2.2.1
      (by decide) (by decide)

/-- C7: `initialize` is atomic with respect to the registry slot: it fails
exactly when run-folder creation fails, in which case the previously installed
logger (if any) is untouched; on success the freshly built logger replaces the
slot's content, whatever was there before — re-initialization is never
rejected. -/
theorem initLogger_atomic (cfg : LoggerConfiguration) (w : World)
    (reg : Option Logger) :
    ((initLogger cfg w reg).1 =
      if w.createDirOk then Except.ok () else Except.error IOError.ioErr) ∧
    ((initLogger cfg w reg).2 =
      if w.createDirOk then some ⟨cfg, logFilePath cfg w⟩ else reg) := by
  cases hc : w.createDirOk
  · have hn := logger_new_err cfg w hc
    unfold initLogger
    rw [hn]
    simp [hc]
  · have hn := logger_new_ok cfg w hc
    unfold initLogger
    rw [hn]
    simp [hc]

/-- C10: because `\x7bMESSAGE\x7d` is substituted last and substituted text is
never rescanned, whenever the pipeline reaches a template still containing
`\x7bMESSAGE\x7d`, the entire message argument — any placeholder tokens it
contains included — appears verbatim as a substring of the formatted
output. -/
theorem message_placeholder_tokens_verbatim (cfg : LoggerConfiguration)
    (ts m : Str) (lvl : LogLevel)
    (h : containsL (substitutedNoMsg cfg ts lvl) tMESSAGE = true) :
    containsL (format_message cfg ts m lvl) m = true := by
  have hne : tMESSAGE ≠ [] := by decide
  have h1 : m <:+: substituted cfg ts m lvl := by
    unfold substituted
    rw [if_pos h]
    exact infix_replaceL tMESSAGE m _ hne h
  have h2 : m <:+: format_message cfg ts m lvl := by
    unfold format_message
    by_cases he : endsWithNewline (substituted cfg ts m lvl) = true
    · rw [if_pos he]
      exact h1
    · rw [if_neg he]
      exact h1.trans ((List.prefix_append _ _).isInfix)
  exact (containsL_spec _ _).mpr h2

/-- C10 witness: the template `"\x7bTIMESTAMP\x7d|\x7bMESSAGE\x7d"` with the
message argument `"\x7bTIMESTAMP\x7d"` renders as `"T0|\x7bTIMESTAMP\x7d\n"`:
the template's token is expanded while the same token inside the message
survives verbatim. -/
theorem message_placeholder_tokens_verbatim_witness :
    containsL (format_message cfgTsMsg (str "T0") tTIMESTAMP LogLevel.info)
      tTIMESTAMP = true ∧
    format_message cfgTsMsg (str "T0") tTIMESTAMP LogLevel.info =
      str "T0|\x7bTIMESTAMP\x7d\n" := by
  constructor
  · exact message_placeholder_tokens_verbatim cfgTsMsg (str "T0") tTIMESTAMP
      LogLevel.info (by decide)
  · decide

end ExecLogger
